import Mathlib

/-!
Shallow embedding of two Python modules of the repository:

* `src/tests/python/operators.py` — a mesh-operator test driver: a literal
  fixture table and a command-line dispatch loop over `sys.argv` that calls
  into an external `OperatorTest` object.

* `src/release/scripts/modules/rna_user_menus_ui.py` — a preferences-panel
  UI module that reads the host's user-menu / keymap state and issues
  widget calls; it is modelled as state-passing functions that return the
  updated host state together with a trace of emitted widgets.

Machine-level effects that cannot fail are kept; Python exceptions
(IndexError on a missing CLI argument, attribute access on None, KeyError
on a missing keymap, list index out of range) are modelled with explicit
error results.
-/

namespace Operators

/-- The fields of the external `OperatorTest` object that the script can
touch.  `apply_modifiers` is the only field the script assigns; every other
field of the object is abstracted into `rest`, so that frame properties
("no other field changes") are expressible. -/
structure OperatorTest (α : Type) where
  apply_modifiers : Bool
  rest : α
  deriving Repr, DecidableEq

/-- Observable actions of `main`'s dispatch loop on the `OperatorTest`
object: the field assignment `operators_test.apply_modifiers = False` and
the two method calls. -/
inductive OTEvent where
  | set_apply_modifiers (b : Bool)
  | call_run_all_tests
  | call_run_test (name : String)
  deriving Repr, DecidableEq

/-- Result of running the dispatch loop: final `OperatorTest` state, the
ordered event trace, and whether a Python `IndexError` was raised
(`command[i + 1]` on a missing test name). -/
structure DispatchOut (α : Type) where
  st : OperatorTest α
  events : List OTEvent
  err : Bool
  deriving Repr, DecidableEq

/-- The dispatch loop of `main` (operators.py lines 153-162):

    for i, cmd in enumerate(command):
        if cmd == "--run-all-tests":
            operators_test.run_all_tests()
            break
        elif cmd == "--run-test":
            operators_test.apply_modifiers = False
            name = command[i + 1]
            operators_test.run_test(name)
            break

Since the loop scans left to right and `command[i + 1]` is the element
immediately after the current one, the loop is recursion on the list; an
empty tail after `--run-test` is the IndexError. -/
def mainDispatch (st : OperatorTest α) : List String → DispatchOut α
  | [] => ⟨st, [], false⟩
  | c :: rest =>
    if c = "--run-all-tests" then
      ⟨st, [.call_run_all_tests], false⟩
    else if c = "--run-test" then
      let st' := { st with apply_modifiers := false }
      match rest with
      | [] => ⟨st', [.set_apply_modifiers false], true⟩
      | n :: _ => ⟨st', [.set_apply_modifiers false, .call_run_test n], false⟩
    else
      mainDispatch st rest

/-- Whether a command-line token is one of the two dispatch flags. -/
def isFlag (s : String) : Bool :=
  s = "--run-all-tests" || s = "--run-test"

/-- Whether an event is a call into the `OperatorTest` object (as opposed
to a field assignment). -/
def OTEvent.isCall : OTEvent → Bool
  | .call_run_all_tests => true
  | .call_run_test _ => true
  | .set_apply_modifiers _ => false

/-- A token list containing neither flag. -/
def noFlags (cmds : List String) : Bool :=
  cmds.all (fun c => !isFlag c)

end Operators

namespace UserMenusUI

/-- Host objects that widget calls target.  Menu items are identified by
their host object identity (`id`); `umItemOp`, `umItemMenu`, `umItemProp`
are the sub-objects returned by `item.get_operator()`, `item.get_menu()`
and `item.get_property()`; `kmiObj` is the keymap item being edited. -/
inductive Obj where
  | umRoot
  | umGroup (gid : Nat)
  | umItem (id : Nat)
  | umItemOp (id : Nat)
  | umItemMenu (id : Nat)
  | umItemProp (id : Nat)
  | kmiObj
  deriving DecidableEq

/-- Widget-emitting layout calls of the UI module.  Pure layout containers
(`row`, `column`, `box`, `split`) only group widgets on screen and carry no
host-state effect, so the trace records the widget calls: `label`,
`prop` (with its `text` keyword when the source passes one), `operator`
buttons (with the `.index` assignment on the returned operator properties
when the source makes one), `menu`, `separator`, and
`template_user_menu_item_properties`. -/
inductive Widget where
  | label (text : String)
  | prop (o : Obj) (propName : String) (text : Option String)
  | oper (opName : String) (withIndex : Option Int)
  | menuSel (menuName : String) (text : String)
  | separator
  | template_user_menu_item_properties (o : Obj)
  deriving DecidableEq

/-- A user-menu item of the host preference graph.  `id` models Python
object identity; `sub` is `item.get_submenu().items_list` (meaningful when
`typ = "SUBMENU"`).  The editor sub-objects (`get_operator` / `get_menu` /
`get_property`) are only ever used as `prop` targets, so they are
identified through `Obj` rather than stored. -/
inductive UMItem where
  | mk (id : Nat) (name : String) (icon : String) (typ : String)
       (is_selected : Bool) (sub : List UMItem)

def UMItem.id : UMItem → Nat
  | .mk i _ _ _ _ _ => i

def UMItem.name : UMItem → String
  | .mk _ n _ _ _ _ => n

def UMItem.icon : UMItem → String
  | .mk _ _ ic _ _ _ => ic

def UMItem.typ : UMItem → String
  | .mk _ _ _ t _ _ => t

def UMItem.is_selected : UMItem → Bool
  | .mk _ _ _ _ s _ => s

def UMItem.sub : UMItem → List UMItem
  | .mk _ _ _ _ _ xs => xs

/-- The assignment `item.is_selected = b`. -/
def UMItem.setSelected (b : Bool) : UMItem → UMItem
  | .mk i n ic t _ xs => .mk i n ic t b xs

/-- Replace the submenu items list (the drawing recursion mutates the
submenu's items in place). -/
def UMItem.withSub (xs : List UMItem) : UMItem → UMItem
  | .mk i n ic t s _ => .mk i n ic t s xs

/-- A user-menu group (an element of `um.menus`): named collection of menu items
with a layout type (`"PIE"` or list).  `gid` models object identity. -/
structure UMGroup where
  gid : Nat
  name : String
  idname : String
  typ : String
  deriving DecidableEq

/-- The menu object returned by `um.get_current_menu()`. -/
structure Menu where
  menu_items : List UMItem

/-- A keymap item (host keymap graph).  `props_name` / `props_idname` are
`kmi.properties.name` and `kmi.properties.idname`. -/
structure KeymapItem where
  idname : String
  props_name : String
  props_idname : String
  active : Bool
  map_type : String
  event_type : String
  event_value : String
  shift : Bool
  ctrl : Bool
  alt : Bool
  deriving DecidableEq

/-- A keymap of `context.window_manager.keyconfigs.user.keymaps`. -/
structure Keymap where
  name : String
  keymap_items : List KeymapItem
  deriving DecidableEq

/-- The `context.preferences.user_menus` object.  `has_item` and
`current_menu` model the host accessors `um.has_item()` and
`um.get_current_menu()`.

Modelled from the spec: `has_item` and `get_current_menu` are host-owned
accessors of the preference object graph (spec §6); their values are part
of the host state read by this module, so they are state fields here. -/
structure UserMenus where
  menus : List UMGroup
  active_group : Option UMGroup
  active_item : Option UMItem
  has_item : Bool
  current_menu : Option Menu
  expanded : Bool

/-- The slice of `bpy.context` the module reads: the preference user-menu
state and the user key configuration's keymaps. -/
structure Context where
  um : UserMenus
  keymaps : List Keymap

/-- Python truthiness of the `idname` argument of `get_keymap`: `None` and
the empty string are falsy. -/
def falsyStr : Option String → Bool
  | none => true
  | some s => s = ""

/-- The comparison `item == um.active_item` (host object identity). -/
def isActiveItem (um : UserMenus) (item : UMItem) : Bool :=
  match um.active_item with
  | some a => a.id = item.id
  | none => false

/-- The inner condition of `get_keymap`'s search loop (lines 49-50): the
item is bound to `wm.call_user_menu` and its `properties.name` equals the
resolved idname. -/
def userMenuKmiPred (idname : String) (kmi : KeymapItem) : Bool :=
  kmi.idname = "wm.call_user_menu" && kmi.props_name = idname

/-- The search loop of `get_keymap` (lines 47-51): first keymap item, over
the user keymaps in order, bound to `wm.call_user_menu` whose
`properties.name` equals `idname`. -/
def findUserMenuKmi (kms : List Keymap) (idname : String) : Option KeymapItem :=
  match kms with
  | [] => none
  | km :: rest =>
    match km.keymap_items.find? (userMenuKmiPred idname) with
    | some kmi => some kmi
    | none => findUserMenuKmi rest idname

/-- The keymap item built by the `ensure` branch (lines 53-56):
`keymap_items.new("wm.call_user_menu", 'NONE', 'ANY', shift=False,
ctrl=False, alt=False)` followed by `kmi.properties.idname = idname` and
`kmi.active = True`.  The host initialises `properties.name` to the empty
string and derives `map_type` from the event type ('NONE' ↦ 'KEYBOARD');
neither is set by this code. -/
def newUserMenuKmi (idname : String) : KeymapItem :=
  { idname := "wm.call_user_menu"
    props_name := ""
    props_idname := idname
    active := true
    map_type := "KEYBOARD"
    event_type := "NONE"
    event_value := "ANY"
    shift := false
    ctrl := false
    alt := false }

/-- `keymaps['Window'].keymap_items.new(...)`: append the new item to the
first keymap named `Window`. -/
def addKmiToWindow (kmi : KeymapItem) : List Keymap → List Keymap
  | [] => []
  | km :: rest =>
    if km.name = "Window" then
      { km with keymap_items := km.keymap_items ++ [kmi] } :: rest
    else
      km :: addKmiToWindow kmi rest

/-- `get_keymap(context, idname, ensure)` (lines 40-57).  Errors model the
Python exceptions: attribute access on a `None` active group while
resolving a falsy `idname`, and the `KeyError` of `keymaps['Window']` when
no such keymap exists.  Returns the found/created item (or `none`, the
fall-through `return None`) together with the key configuration after the
call. -/
def get_keymap (ctx : Context) (idname : Option String) (ensure : Bool) :
    Except String (Option KeymapItem × List Keymap) :=
  match (if falsyStr idname then
           match ctx.um.active_group with
           | none => Except.error "AttributeError: active_group is None"
           | some g => Except.ok g.idname
         else Except.ok (idname.getD "")) with
  | .error e => .error e
  | .ok resolved =>
    match findUserMenuKmi ctx.keymaps resolved with
    | some kmi => .ok (some kmi, ctx.keymaps)
    | none =>
      if ensure then
        match ctx.keymaps.find? (fun km => km.name = "Window") with
        | none => .error "KeyError: Window"
        | some _ =>
          let kmi := newUserMenuKmi resolved
          .ok (some kmi, addKmiToWindow kmi ctx.keymaps)
      else
        .ok (none, ctx.keymaps)

mutual

/-- `draw_button(context, box, item, index)` (lines 59-83).  Computes the
button text, performs the assignment
`item.is_selected = item == um.active_item`, emits the `is_selected`
toggle, and for a `SUBMENU` item reads `um.active_group.type` (an
attribute error when the active group is `None`), emits the four pie
editing operators when the active group is a pie and `index >= 0`, and
recurses into the submenu's items list.  Returns the mutated item and the
widget trace. -/
def draw_button (ctx : Context) (item : UMItem) (index : Int) :
    Except String (UMItem × List Widget) :=
  match item with
  | .mk i nm ic tp _ xs =>
    let name := if nm = "" then " " else nm
    let name := if tp = "SEPARATOR" then "___________" else name
    let sel := isActiveItem ctx.um (.mk i nm ic tp false xs)
    let button := Widget.prop (Obj.umItem i) "is_selected" (some name)
    if tp = "SUBMENU" then
      match ctx.um.active_group with
      | none => .error "AttributeError: active_group is None"
      | some g =>
        let ops :=
          if g.typ = "PIE" ∧ 0 ≤ index then
            [Widget.oper "preferences.pie_menuitem_add" (some index),
             Widget.oper "preferences.menuitem_remove" none,
             Widget.oper "preferences.menuitem_up" none,
             Widget.oper "preferences.menuitem_down" none]
          else []
        match draw_item ctx xs with
        | .error e => .error e
        | .ok (xs2, ws) =>
          .ok (.mk i nm ic tp sel xs2, button :: (ops ++ ws))
    else
      .ok (.mk i nm ic tp sel xs, [button])

/-- `draw_item(context, box, items)` (lines 85-87): draw each item of the
list with `index = -1`. -/
def draw_item (ctx : Context) (items : List UMItem) :
    Except String (List UMItem × List Widget) :=
  match items with
  | [] => .ok ([], [])
  | x :: rest =>
    match draw_button ctx x (-1) with
    | .error e => .error e
    | .ok (x2, w1) =>
      match draw_item ctx rest with
      | .error e => .error e
      | .ok (rest2, w2) => .ok (x2 :: rest2, w1 ++ w2)

end

/-- The add/remove/up/down column and trailing separator of
`draw_item_box` (lines 105-109); `menuitem_add` gets `.index = -1`. -/
def itemBoxOps : List Widget :=
  [Widget.oper "preferences.menuitem_add" (some (-1)),
   Widget.oper "preferences.menuitem_remove" none,
   Widget.oper "preferences.menuitem_up" none,
   Widget.oper "preferences.menuitem_down" none,
   Widget.separator]

/-- `draw_item_box(context, row)` (lines 89-109): a "none" label when
`um.has_item()` is false, otherwise the drawn current menu items
(`um.get_current_menu().menu_items`; attribute error when the current menu
is `None`), followed by the editing operator column. -/
def draw_item_box (ctx : Context) : Except String (Context × List Widget) :=
  if ctx.um.has_item = false then
    .ok (ctx, Widget.label "none" :: itemBoxOps)
  else
    match ctx.um.current_menu with
    | none => .error "AttributeError: current menu is None"
    | some m =>
      match draw_item ctx m.menu_items with
      | .error e => .error e
      | .ok (items2, ws) =>
        .ok ({ ctx with um := { ctx.um with current_menu := some ⟨items2⟩ } },
             ws ++ itemBoxOps)

/-- `draw_pie_item(context, col, items, label, index)` (lines 111-114):
a direction label followed by the item's button. -/
def draw_pie_item (ctx : Context) (item : UMItem) (lbl : String)
    (index : Int) : Except String (UMItem × List Widget) :=
  match draw_button ctx item index with
  | .error e => .error e
  | .ok (item2, ws) => .ok (item2, Widget.label lbl :: ws)

/-- The eight fixed pie slots drawn by `draw_pie` (lines 124-131), in
source order. -/
def pieSlots : List (Nat × String) :=
  [(0, "Left : "), (1, "Right : "), (2, "Down : "), (3, "Up : "),
   (4, "Upper left : "), (5, "Upper right : "), (6, "Lower left : "),
   (7, "Lower right : ")]

/-- The slot loop of `draw_pie`: each slot reads `cm.menu_items[i]` (an
IndexError when out of range), draws it, and writes the mutated item
back. -/
def draw_pie_slots (ctx : Context) :
    List (Nat × String) → List UMItem → Except String (List UMItem × List Widget)
  | [], items => .ok (items, [])
  | (i, lbl) :: slots, items =>
    match items.get? i with
    | none => .error "IndexError: list index out of range"
    | some it =>
      match draw_pie_item ctx it lbl (Int.ofNat i) with
      | .error e => .error e
      | .ok (it2, w1) =>
        match draw_pie_slots ctx slots (items.set i it2) with
        | .error e => .error e
        | .ok (items2, w2) => .ok (items2, w1 ++ w2)

/-- `draw_pie(context, row)` (lines 116-132): returns silently when the
current menu is `None`, otherwise draws the eight fixed directional slots
and a separator. -/
def draw_pie (ctx : Context) : Except String (Context × List Widget) :=
  match ctx.um.current_menu with
  | none => .ok (ctx, [])
  | some m =>
    match draw_pie_slots ctx pieSlots m.menu_items with
    | .error e => .error e
    | .ok (items2, ws) =>
      .ok ({ ctx with um := { ctx.um with current_menu := some ⟨items2⟩ } },
           ws ++ [Widget.separator])

/-- `draw_item_editor(context, row)` (lines 135-165): help labels when the
list is empty; otherwise, for an active item, the type selector, the
icon/name widgets unless the item is a separator, and the extra widgets of
the `OPERATOR` / `MENU` / `PROPERTY` types; a "No item selected." label
when no item is active.  Purely reading: no state change. -/
def draw_item_editor (ctx : Context) : List Widget :=
  if ctx.um.has_item = false then
    [Widget.label "No item in this list.",
     Widget.label "Add one or choose another list to get started"]
  else
    match ctx.um.active_item with
    | some cur =>
      [Widget.prop (Obj.umItem cur.id) "type" none]
      ++ (if cur.typ ≠ "SEPARATOR" then
            [Widget.prop (Obj.umItem cur.id) "icon" (some ""),
             Widget.prop (Obj.umItem cur.id) "name" none]
          else [])
      ++ (if cur.typ = "OPERATOR" then
            [Widget.prop (Obj.umItemOp cur.id) "operator" none,
             Widget.template_user_menu_item_properties (Obj.umItemOp cur.id)]
          else [])
      ++ (if cur.typ = "MENU" then
            [Widget.prop (Obj.umItemMenu cur.id) "id_name" (some "ID name")]
          else [])
      ++ (if cur.typ = "PROPERTY" then
            [Widget.prop (Obj.umItemProp cur.id) "id_name" none,
             Widget.prop (Obj.umItemProp cur.id) "context" none]
          else [])
    | none => [Widget.label "No item selected."]

/-- `draw_user_menu_preference_expanded(context, layout, kmi, map_type)`
(lines 167-198): with no keymap item, a "No key set" label; otherwise, for
map types other than TEXTINPUT/TIMER, the event widgets of the map type
followed by the modifier toggles. -/
def draw_user_menu_preference_expanded (kmi : Option KeymapItem)
    (map_type : Option String) : List Widget :=
  match kmi with
  | none => [Widget.label "No key set"]
  | some _ =>
    if map_type = some "TEXTINPUT" ∨ map_type = some "TIMER" then []
    else
      (if map_type = some "KEYBOARD" then
        [Widget.prop Obj.kmiObj "type" (some ""),
         Widget.prop Obj.kmiObj "value" (some ""),
         Widget.prop Obj.kmiObj "repeat" (some "Repeat")]
       else if map_type = some "MOUSE" ∨ map_type = some "NDOF" then
        [Widget.prop Obj.kmiObj "type" (some ""),
         Widget.prop Obj.kmiObj "value" (some "")]
       else [])
      ++ [Widget.prop Obj.kmiObj "any" none,
          Widget.prop Obj.kmiObj "shift" none,
          Widget.prop Obj.kmiObj "ctrl" none,
          Widget.prop Obj.kmiObj "alt" none,
          Widget.prop Obj.kmiObj "oskey" (some "Cmd"),
          Widget.prop Obj.kmiObj "key_modifier" (some "")]

/-- The widgets `draw_user_menu_preference` emits for the keymap item row
(lines 219-235): the map-type selector, then the event widget of the map
type (an empty label for an unknown map type). -/
def kmiRowWidgets (k : KeymapItem) : List Widget :=
  Widget.prop Obj.kmiObj "map_type" (some "") ::
  (if k.map_type = "KEYBOARD" then [Widget.prop Obj.kmiObj "type" (some "")]
   else if k.map_type = "MOUSE" then [Widget.prop Obj.kmiObj "type" (some "")]
   else if k.map_type = "NDOF" then [Widget.prop Obj.kmiObj "type" (some "")]
   else if k.map_type = "TWEAK" then
     [Widget.prop Obj.kmiObj "type" (some ""),
      Widget.prop Obj.kmiObj "value" (some "")]
   else if k.map_type = "TIMER" then [Widget.prop Obj.kmiObj "type" (some "")]
   else [Widget.label ""])

/-- `draw_user_menu_preference(context, layout)` (lines 200-238): looks the
active group's keymap item up with `ensure=False`, emits the `expanded`
toggle, the group name/type widgets when the active group is not
`um.menus[0]` (IndexError when `um.menus` is empty; attribute error when
the active group is `None`), the keymap item row, and the expanded key
editor when `um.expanded` is set.  Reads only: the key configuration
returned unchanged by the `ensure=False` lookup is discarded. -/
def draw_user_menu_preference (ctx : Context) : Except String (List Widget) :=
  match get_keymap ctx none false with
  | .error e => .error e
  | .ok (kmi, _) =>
    let ws1 := [Widget.prop Obj.umRoot "expanded" (some "")]
    match ctx.um.menus.head? with
    | none => .error "IndexError: list index out of range"
    | some qf =>
      match ctx.um.active_group with
      | none => .error "AttributeError: active_group is None"
      | some umg =>
        let ws2 :=
          if umg.gid ≠ qf.gid then
            [Widget.prop (Obj.umGroup umg.gid) "name" none,
             Widget.prop (Obj.umGroup umg.gid) "type"
               (some (if umg.typ = "PIE" then "Pie" else "List"))]
          else []
        let ws3 := match kmi with
          | none => []
          | some k => kmiRowWidgets k
        let ws4 :=
          if ctx.um.expanded then
            draw_user_menu_preference_expanded kmi (kmi.map (·.map_type))
          else []
        .ok (ws1 ++ ws2 ++ ws3 ++ ws4)

/-- The fallback of `draw_user_menus` (lines 257-258):
`if not um.active_group: um.active_group = um.menus[0]` (IndexError when
`um.menus` is empty).  Returns the possibly updated state together with
the group that is active after it. -/
def applyGroupFallback (um : UserMenus) : Except String (UserMenus × UMGroup) :=
  match um.active_group with
  | some g => .ok (um, g)
  | none =>
    match um.menus.head? with
    | some g => .ok ({ um with active_group := some g }, g)
    | none => .error "IndexError: list index out of range"

/-- `draw_user_menus(context, layout)` (lines 253-293): applies the
active-group fallback, draws the group selector row, the keymap preference
box, then either the pie slots or the item box depending on the active
group's type, and the item editor. -/
def draw_user_menus (ctx : Context) : Except String (Context × List Widget) :=
  match applyGroupFallback ctx.um with
  | .error e => .error e
  | .ok (um1, g) =>
    let ctx1 : Context := { ctx with um := um1 }
    let ws1 :=
      [Widget.menuSel "USERPREF_MT_menu_select" g.name,
       Widget.oper "preferences.usermenus_add" none,
       Widget.oper "preferences.usermenus_remove" none,
       Widget.prop Obj.umRoot "space_selected" (some ""),
       Widget.prop Obj.umRoot "context_selected" (some ""),
       Widget.separator]
    match draw_user_menu_preference ctx1 with
    | .error e => .error e
    | .ok ws2 =>
      match (if g.typ = "PIE" then draw_pie ctx1 else draw_item_box ctx1) with
      | .error e => .error e
      | .ok (ctx2, ws3) =>
        let ws4 := draw_item_editor ctx2
        .ok (ctx2, ws1 ++ ws2 ++ [Widget.separator] ++ ws3 ++ ws4
               ++ [Widget.separator])

mutual

/-- A menu item with all `is_selected` flags (recursively) cleared: two
items are strip-equal exactly when they differ only in selection flags. -/
def UMItem.strip : UMItem → UMItem
  | .mk i n ic t _ xs => .mk i n ic t false (stripList xs)

def stripList : List UMItem → List UMItem
  | [] => []
  | x :: xs => UMItem.strip x :: stripList xs

end

/-- Strip all selection flags of a menu. -/
def Menu.strip (m : Menu) : Menu :=
  ⟨stripList m.menu_items⟩

mutual

/-- The items `draw_button` draws starting from one item: the item itself
and, when it is a `SUBMENU`, the items drawn from its submenu list. -/
def drawnOf : UMItem → List UMItem
  | .mk i n ic t s xs =>
    .mk i n ic t s xs :: (if t = "SUBMENU" then drawnOfList xs else [])

def drawnOfList : List UMItem → List UMItem
  | [] => []
  | x :: xs => drawnOf x ++ drawnOfList xs

end

/-- Host-guaranteed well-formedness of the state handed to
`draw_user_menus`.

Modelled from the spec: the host guarantees its non-null invariants
(spec §7 "host-guaranteed non-null access") — there is always at least one
menu group to fall back to, a current menu object exists whenever
`um.has_item()` reports items, and a well-formed pie menu carries its
eight directional slots. -/
def wellformed (ctx : Context) : Bool :=
  match ctx.um.menus with
  | [] => false
  | g0 :: _ =>
    let g := ctx.um.active_group.getD g0
    if g.typ = "PIE" then
      match ctx.um.current_menu with
      | none => true
      | some m => 8 ≤ m.menu_items.length
    else
      !ctx.um.has_item || ctx.um.current_menu.isSome

/-! Concrete host states used to evaluate the definitions on closed
inputs. -/

def c1g : UMGroup := ⟨0, "Quick Favourites", "QF", "LIST"⟩

def c1item : UMItem := .mk 1 "A" "NONE" "OPERATOR" true []

def c1ctx : Context := ⟨⟨[c1g], some c1g, none, false, none, false⟩, []⟩

/-- The run of `draw_user_menus` on `c1ctx`, spelled out. -/
def c1out : Context × List Widget :=
  (c1ctx,
   [Widget.menuSel "USERPREF_MT_menu_select" "Quick Favourites",
    Widget.oper "preferences.usermenus_add" none,
    Widget.oper "preferences.usermenus_remove" none,
    Widget.prop Obj.umRoot "space_selected" (some ""),
    Widget.prop Obj.umRoot "context_selected" (some ""),
    Widget.separator,
    Widget.prop Obj.umRoot "expanded" (some ""),
    Widget.separator,
    Widget.label "none",
    Widget.oper "preferences.menuitem_add" (some (-1)),
    Widget.oper "preferences.menuitem_remove" none,
    Widget.oper "preferences.menuitem_up" none,
    Widget.oper "preferences.menuitem_down" none,
    Widget.separator,
    Widget.label "No item in this list.",
    Widget.label "Add one or choose another list to get started",
    Widget.separator])

def c3ctx : Context := ⟨⟨[⟨0, "G", "QF", "PIE"⟩], none, none, false, none, false⟩, []⟩

def c5g : UMGroup := ⟨2, "Edit", "ED", "LIST"⟩

def c5ctx : Context := ⟨⟨[c5g], none, none, false, none, false⟩, []⟩

/-- The run of `draw_user_menus` on `c5ctx`, spelled out: the fallback has
set the active group. -/
def c5out : Context × List Widget :=
  (⟨⟨[c5g], some c5g, none, false, none, false⟩, []⟩,
   [Widget.menuSel "USERPREF_MT_menu_select" "Edit",
    Widget.oper "preferences.usermenus_add" none,
    Widget.oper "preferences.usermenus_remove" none,
    Widget.prop Obj.umRoot "space_selected" (some ""),
    Widget.prop Obj.umRoot "context_selected" (some ""),
    Widget.separator,
    Widget.prop Obj.umRoot "expanded" (some ""),
    Widget.separator,
    Widget.label "none",
    Widget.oper "preferences.menuitem_add" (some (-1)),
    Widget.oper "preferences.menuitem_remove" none,
    Widget.oper "preferences.menuitem_up" none,
    Widget.oper "preferences.menuitem_down" none,
    Widget.separator,
    Widget.label "No item in this list.",
    Widget.label "Add one or choose another list to get started",
    Widget.separator])

def c7cur : UMItem := .mk 3 "Item" "NONE" "MENU" false []

def c7ctx : Context := ⟨⟨[], none, some c7cur, true, none, false⟩, []⟩

def c8kmi : KeymapItem :=
  ⟨"wm.call_user_menu", "QF", "", true, "KEYBOARD", "A", "PRESS",
   false, false, false⟩

def c8ctx : Context :=
  ⟨⟨[], some ⟨0, "G", "QF", "LIST"⟩, none, false, none, false⟩,
   [⟨"Window", [c8kmi]⟩]⟩

def c10item : UMItem := .mk 5 "A" "NONE" "OPERATOR" false []

def c10sel : UMItem := .mk 5 "A" "NONE" "OPERATOR" true []

def c10ctx : Context := ⟨⟨[], none, some c10item, true, none, false⟩, []⟩

end UserMenusUI


namespace Operators

/-- A Python value appearing in a fixture's parameter dictionary. -/
inductive PVal where
  | num (q : ℚ)
  | boolean (b : Bool)
  | str (s : String)
  | triple (a b c : ℚ)
  | int (n : Int)
  deriving DecidableEq

/-- One element of a fixture row of the `tests` literal: in the source all
of the selection mode tag and the three names are strings, the selected
elements are a set of indices, and the operator parameters are a dict. -/
inductive TField where
  | str (s : String)
  | idxs (l : List Nat)
  | pmap (m : List (String × PVal))
  deriving DecidableEq

/-- `MONKEY_LOOP_VERT` (operators.py lines 32-33). -/
def MONKEY_LOOP_VERT : List Nat :=
  [68, 69, 71, 73, 74, 75, 76, 77, 90, 129, 136, 175, 188, 189, 198, 207,
   216, 223, 230, 301, 302, 303, 304, 305, 306, 307, 308]

/-- `MONKEY_LOOP_EDGE` (operators.py lines 34-35). -/
def MONKEY_LOOP_EDGE : List Nat :=
  [131, 278, 299, 305, 307, 334, 337, 359, 384, 396, 399, 412, 415, 560,
   567, 572, 577, 615, 622, 627, 632, 643, 648, 655, 660, 707]

/-- The repeated inset selection set of rows 33-35. -/
def insetVerts : List Nat :=
  [5, 16, 17, 19, 20, 22, 23, 34, 47, 49, 50, 52, 59, 61, 62, 65, 83, 91, 95]

set_option maxHeartbeats 1000000 in
/-- The `tests` fixture list literal of `main` (operators.py lines 39-149),
row by row in source order.  Set comprehensions of `range(n)` become
`List.range n`, and the one set difference keeps its source form. -/
def tests : List (List TField) :=
  [ [.str "FACE", .idxs [0, 1, 2, 3, 4, 5], .str "CubeBisect",
     .str "testCubeBisect", .str "expectedCubeBisect", .str "bisect",
     .pmap [("plane_co", .triple 0 0 0), ("plane_no", .triple 0 1 1),
            ("clear_inner", .boolean true), ("use_fill", .boolean true)]],
    [.str "FACE", .idxs [0, 1, 2, 3, 4, 5], .str "CubeBlendFromShape",
     .str "testCubeBlendFromShape", .str "expectedCubeBlendFromShape",
     .str "blend_from_shape", .pmap [("shape", .str "Key 1")]],
    [.str "FACE", .idxs [0, 1], .str "CubeBridgeEdgeLoop",
     .str "testCubeBrigeEdgeLoop", .str "expectedCubeBridgeEdgeLoop",
     .str "bridge_edge_loops", .pmap []],
    [.str "FACE", .idxs (List.range 500), .str "MonkeyDecimate",
     .str "testMonkeyDecimate", .str "expectedMonkeyDecimate",
     .str "decimate", .pmap [("ratio", .num (1 / 10))]],
    [.str "VERT", .idxs [3], .str "CubeDeleteVertices",
     .str "testCubeDeleteVertices", .str "expectedCubeDeleteVertices",
     .str "delete", .pmap []],
    [.str "FACE", .idxs [0], .str "CubeDeleteFaces",
     .str "testCubeDeleteFaces", .str "expectedCubeDeleteFaces",
     .str "delete", .pmap []],
    [.str "EDGE", .idxs [0, 1, 2, 3], .str "CubeDeleteEdges",
     .str "testCubeDeleteEdges", .str "expectedCubeDeleteEdges",
     .str "delete", .pmap []],
    [.str "VERT", .idxs MONKEY_LOOP_VERT, .str "MonkeyDeleteEdgeLoopVertices",
     .str "testMokneyDeleteEdgeLoopVertices",
     .str "expectedMonkeyDeleteEdgeLoopVertices", .str "delete_edgeloop",
     .pmap []],
    [.str "EDGE", .idxs MONKEY_LOOP_EDGE, .str "MonkeyDeleteEdgeLoopEdges",
     .str "testMokneyDeleteEdgeLoopEdges",
     .str "expectedMonkeyDeleteEdgeLoopEdges", .str "delete_edgeloop",
     .pmap []],
    [.str "VERT", .idxs (List.range 12), .str "CubeDeleteLooseVertices",
     .str "testCubeDeleteLooseVertices", .str "expectedCubeDeleteLooseVertices",
     .str "delete_loose",
     .pmap [("use_verts", .boolean true), ("use_edges", .boolean false),
            ("use_faces", .boolean false)]],
    [.str "EDGE", .idxs (List.range 14), .str "CubeDeleteLooseEdges",
     .str "testCubeDeleteLooseEdges", .str "expectedCubeDeleteLooseEdges",
     .str "delete_loose",
     .pmap [("use_verts", .boolean false), ("use_edges", .boolean true),
            ("use_faces", .boolean false)]],
    [.str "FACE", .idxs (List.range 7), .str "CubeDeleteLooseFaces",
     .str "testCubeDeleteLooseFaces", .str "expectedCubeDeleteLooseFaces",
     .str "delete_loose",
     .pmap [("use_verts", .boolean false), ("use_edges", .boolean false),
            ("use_faces", .boolean true)]],
    [.str "VERT", .idxs (List.range 8), .str "CubeDissolveDegenerate",
     .str "testCubeDissolveDegenerate", .str "expectedCubeDissolveDegenerate",
     .str "dissolve_degenerate", .pmap []],
    [.str "EDGE", .idxs [0, 5, 6, 9], .str "CylinderDissolveEdges",
     .str "testCylinderDissolveEdges", .str "expectedCylinderDissolveEdges",
     .str "dissolve_edges", .pmap []],
    [.str "VERT", .idxs [5, 34, 47, 49, 83, 91, 95], .str "CubeDissolveFaces",
     .str "testCubeDissolveFaces", .str "expectedCubeDissolveFaces",
     .str "dissolve_faces", .pmap []],
    [.str "VERT", .idxs [16, 20, 22, 23, 25], .str "CubeDissolveVerts",
     .str "testCubeDissolveVerts", .str "expectedCubeDissolveVerts",
     .str "dissolve_verts", .pmap []],
    [.str "VERT", .idxs ((List.range 33).filter (fun i => i ≠ 23)),
     .str "ConeDuplicateVertices", .str "testConeDuplicateVertices",
     .str "expectedConeDuplicateVertices", .str "duplicate", .pmap []],
    [.str "VERT", .idxs [23], .str "ConeDuplicateOneVertex",
     .str "testConeDuplicateOneVertex", .str "expectedConeDuplicateOneVertex",
     .str "duplicate", .pmap []],
    [.str "FACE", .idxs [6, 9], .str "ConeDuplicateFaces",
     .str "testConeDuplicateFaces", .str "expectedConeDuplicateFaces",
     .str "duplicate", .pmap []],
    [.str "EDGE", .idxs (List.range 64), .str "ConeDuplicateEdges",
     .str "testConeDuplicateEdges", .str "expectedConeDuplicateEdges",
     .str "duplicate", .pmap []],
    [.str "EDGE", .idxs [1, 9, 4], .str "CylinderEdgeCollapse",
     .str "testCylinderEdgeCollapse", .str "expectedCylinderEdgeCollapse",
     .str "edge_collapse", .pmap []],
    [.str "VERT", .idxs [1, 3, 4, 5, 7], .str "CubeEdgeFaceAddFace",
     .str "testCubeEdgeFaceAddFace", .str "expectedCubeEdgeFaceAddFace",
     .str "edge_face_add", .pmap []],
    [.str "VERT", .idxs [4, 5], .str "CubeEdgeFaceAddEdge",
     .str "testCubeEdgeFaceAddEdge", .str "expectedCubeEdgeFaceAddEdge",
     .str "edge_face_add", .pmap []],
    [.str "EDGE", .idxs [1], .str "CubeEdgeRotate",
     .str "testCubeEdgeRotate", .str "expectedCubeEdgeRotate",
     .str "edge_rotate", .pmap []],
    [.str "EDGE", .idxs [2, 5, 8, 11, 14, 17, 20, 23], .str "CubeEdgeSplit",
     .str "testCubeEdgeSplit", .str "expectedCubeEdgeSplit",
     .str "edge_split", .pmap []],
    [.str "FACE", .idxs (List.range 500), .str "MonkeyFaceMakePlanar",
     .str "testMonkeyFaceMakePlanar", .str "expectedMonkeyFaceMakePlanar",
     .str "face_make_planar", .pmap []],
    [.str "VERT", .idxs (List.range 6), .str "PlaneFaceSplitByEdges",
     .str "testPlaneFaceSplitByEdges", .str "expectedPlaneFaceSplitByEdges",
     .str "face_split_by_edges", .pmap []],
    [.str "EDGE", .idxs [20, 21, 22, 23, 24, 45, 46, 47, 48, 49],
     .str "IcosphereFill", .str "testIcosphereFill",
     .str "expectedIcosphereFill", .str "fill", .pmap []],
    [.str "EDGE", .idxs [20, 21, 22, 23, 24, 45, 46, 47, 48, 49],
     .str "IcosphereFillUseBeautyFalse", .str "testIcosphereFillUseBeautyFalse",
     .str "expectedIcosphereFillUseBeautyFalse", .str "fill",
     .pmap [("use_beauty", .boolean false)]],
    [.str "EDGE", .idxs [1, 2, 3, 4, 5, 7, 9, 10, 11, 12, 13, 15],
     .str "PlaneFillGrid", .str "testPlaneFillGrid",
     .str "expectedPlaneFillGrid", .str "fill_grid", .pmap []],
    [.str "EDGE", .idxs [1, 2, 3, 4, 5, 7, 9, 10, 11, 12, 13, 15],
     .str "PlaneFillGridSimpleBlending", .str "testPlaneFillGridSimpleBlending",
     .str "expectedPlaneFillGridSimpleBlending", .str "fill_grid",
     .pmap [("use_interp_simple", .boolean true)]],
    [.str "VERT", .idxs (List.range 481), .str "SphereFillHoles",
     .str "testSphereFillHoles", .str "expectedSphereFillHoles",
     .str "fill_holes", .pmap [("sides", .int 9)]],
    [.str "VERT", .idxs insetVerts, .str "CubeInset",
     .str "testCubeInset", .str "expectedCubeInset", .str "inset",
     .pmap [("thickness", .num (1 / 5))]],
    [.str "VERT", .idxs insetVerts, .str "CubeInsetEvenOffsetFalse",
     .str "testCubeInsetEvenOffsetFalse", .str "expectedCubeInsetEvenOffsetFalse",
     .str "inset",
     .pmap [("thickness", .num (1 / 5)), ("use_even_offset", .boolean false)]],
    [.str "VERT", .idxs insetVerts, .str "CubeInsetDepth",
     .str "testCubeInsetDepth", .str "expectedCubeInsetDepth", .str "inset",
     .pmap [("thickness", .num (1 / 5)), ("depth", .num (1 / 5))]],
    [.str "FACE", .idxs [35, 36, 37, 45, 46, 47, 55, 56, 57],
     .str "GridInsetRelativeOffset", .str "testGridInsetRelativeOffset",
     .str "expectedGridInsetRelativeOffset", .str "inset",
     .pmap [("thickness", .num (2 / 5)), ("use_relative_offset", .boolean true)]] ]

/-- A field holding one of the three selection mode tags. -/
def modeTag : TField → Bool
  | .str s => s = "VERT" || s = "EDGE" || s = "FACE"
  | _ => false

def TField.isStr : TField → Bool
  | .str _ => true
  | _ => false

def TField.isIdxs : TField → Bool
  | .idxs _ => true
  | _ => false

def TField.isPmap : TField → Bool
  | .pmap _ => true
  | _ => false

/-- The fixture-row shape the claim describes: exactly six fields — mode
tag, index set, test name, expected-result name, operator name, parameter
dict. -/
def entryShape6 (e : List TField) : Bool :=
  match e with
  | [m, s, tn, en, opn, pm] =>
    modeTag m && s.isIdxs && tn.isStr && en.isStr && opn.isStr && pm.isPmap
  | _ => false

/-- The fixture-row shape actually present in the source: exactly seven
fields — mode tag, index set, base object name, test name,
expected-result name, operator name, parameter dict. -/
def entryShape7 (e : List TField) : Bool :=
  match e with
  | [m, s, bn, tn, en, opn, pm] =>
    modeTag m && s.isIdxs && bn.isStr && tn.isStr && en.isStr && opn.isStr
      && pm.isPmap
  | _ => false

theorem mainDispatch_noFlags (st : OperatorTest α) (cmds : List String)
    (h : noFlags cmds = true) : mainDispatch st cmds = ⟨st, [], false⟩ := by
  induction cmds with
  | nil => rfl
  | cons c rest ih =>
    simp only [noFlags, List.all_cons, Bool.and_eq_true] at h
    obtain ⟨hc, hrest⟩ := h
    simp only [isFlag, Bool.not_eq_true', Bool.or_eq_false_iff,
      decide_eq_false_iff_not] at hc
    simp only [mainDispatch, if_neg hc.1, if_neg hc.2]
    exact ih hrest

theorem mainDispatch_runAll (st : OperatorTest α) (pre rest : List String)
    (h : noFlags pre = true) :
    mainDispatch st (pre ++ "--run-all-tests" :: rest) =
      ⟨st, [.call_run_all_tests], false⟩ := by
  induction pre with
  | nil => rfl
  | cons c pre ih =>
    simp only [noFlags, List.all_cons, Bool.and_eq_true] at h
    obtain ⟨hc, hrest⟩ := h
    simp only [isFlag, Bool.not_eq_true', Bool.or_eq_false_iff,
      decide_eq_false_iff_not] at hc
    simp only [List.cons_append, mainDispatch, if_neg hc.1, if_neg hc.2]
    exact ih hrest

theorem mainDispatch_runTest (st : OperatorTest α) (pre : List String)
    (n : String) (rest : List String) (h : noFlags pre = true) :
    mainDispatch st (pre ++ "--run-test" :: n :: rest) =
      ⟨{ st with apply_modifiers := false },
       [.set_apply_modifiers false, .call_run_test n], false⟩ := by
  induction pre with
  | nil => rfl
  | cons c pre ih =>
    simp only [noFlags, List.all_cons, Bool.and_eq_true] at h
    obtain ⟨hc, hrest⟩ := h
    simp only [isFlag, Bool.not_eq_true', Bool.or_eq_false_iff,
      decide_eq_false_iff_not] at hc
    simp only [List.cons_append, mainDispatch, if_neg hc.1, if_neg hc.2]
    exact ih hrest

theorem mainDispatch_runTest_missing (st : OperatorTest α) (pre : List String)
    (h : noFlags pre = true) :
    mainDispatch st (pre ++ ["--run-test"]) =
      ⟨{ st with apply_modifiers := false },
       [.set_apply_modifiers false], true⟩ := by
  induction pre with
  | nil => rfl
  | cons c pre ih =>
    simp only [noFlags, List.all_cons, Bool.and_eq_true] at h
    obtain ⟨hc, hrest⟩ := h
    simp only [isFlag, Bool.not_eq_true', Bool.or_eq_false_iff,
      decide_eq_false_iff_not] at hc
    simp only [List.cons_append, mainDispatch, if_neg hc.1, if_neg hc.2]
    exact ih hrest

/-- Every token list either has no flag, or splits at the first flag. -/
theorem firstFlag_cases (cmds : List String) :
    noFlags cmds = true ∨
    (∃ pre rest, cmds = pre ++ "--run-all-tests" :: rest ∧ noFlags pre = true) ∨
    (∃ pre n rest, cmds = pre ++ "--run-test" :: n :: rest ∧ noFlags pre = true) ∨
    (∃ pre, cmds = pre ++ ["--run-test"] ∧ noFlags pre = true) := by
  induction cmds with
  | nil => left; rfl
  | cons c rest ih =>
    by_cases hall : c = "--run-all-tests"
    · subst hall
      right; left; exact ⟨[], rest, rfl, rfl⟩
    · by_cases hrt : c = "--run-test"
      · subst hrt
        match rest with
        | [] => right; right; right; exact ⟨[], rfl, rfl⟩
        | n :: rest' => right; right; left; exact ⟨[], n, rest', rfl, rfl⟩
      · have hcflag : isFlag c = false := by
          simp [isFlag, hall, hrt]
        rcases ih with h | ⟨pre, r, heq, hpre⟩ | ⟨pre, n, r, heq, hpre⟩ |
          ⟨pre, heq, hpre⟩
        · left; simp [noFlags, hcflag]; simpa [noFlags] using h
        · right; left
          exact ⟨c :: pre, r, by simp [heq],
            by simp [noFlags, hcflag]; simpa [noFlags] using hpre⟩
        · right; right; left
          exact ⟨c :: pre, n, r, by simp [heq],
            by simp [noFlags, hcflag]; simpa [noFlags] using hpre⟩
        · right; right; right
          exact ⟨c :: pre, by simp [heq],
            by simp [noFlags, hcflag]; simpa [noFlags] using hpre⟩

end Operators

/-- C2 counterexample: the claim quantifies over every argv whose last
element is `--run-test`, but when an earlier flag occurs the loop breaks
there and the out-of-range access never happens: on
`["--run-all-tests", "--run-test"]` the dispatch succeeds without any
error. -/
theorem C2_counterexample :
    (["--run-all-tests", "--run-test"] : List String).getLast? =
        some "--run-test" ∧
    (Operators.mainDispatch (⟨true, ()⟩ : Operators.OperatorTest Unit)
        ["--run-all-tests", "--run-test"]).err = false :=
  ⟨rfl, rfl⟩

/-- C2 (amended): the dispatch loop performs no validation of missing
arguments — it raises the IndexError of `command[i + 1]` exactly when the
first flag occurrence it scans is a trailing `--run-test`, and that
out-of-range access is the only failure mode of the loop. -/
theorem C2_theorem {α : Type} (st : Operators.OperatorTest α)
    (cmds : List String) :
    (Operators.mainDispatch st cmds).err = true ↔
      ∃ pre, cmds = pre ++ ["--run-test"] ∧ Operators.noFlags pre = true := by
  constructor
  · intro herr
    rcases Operators.firstFlag_cases cmds with h | ⟨pre, r, heq, hpre⟩ |
      ⟨pre, n, r, heq, hpre⟩ | ⟨pre, heq, hpre⟩
    · rw [Operators.mainDispatch_noFlags st cmds h] at herr
      exact absurd herr (by simp)
    · rw [heq, Operators.mainDispatch_runAll st pre r hpre] at herr
      exact absurd herr (by simp)
    · rw [heq, Operators.mainDispatch_runTest st pre n r hpre] at herr
      exact absurd herr (by simp)
    · exact ⟨pre, heq, hpre⟩
  · rintro ⟨pre, rfl, hpre⟩
    rw [Operators.mainDispatch_runTest_missing st pre hpre]

/-- C2 witness: on `["--run-test"]` (the flag last, nothing before it) the
dispatch raises the IndexError. -/
theorem C2_witness :
    (Operators.mainDispatch (⟨true, ()⟩ : Operators.OperatorTest Unit)
        ["--run-test"]).err = true :=
  (C2_theorem ⟨true, ()⟩ ["--run-test"]).mpr ⟨[], rfl, rfl⟩

/-- C4 counterexample: the claim promises that whenever `--run-test` is
encountered first, `run_test(command[i + 1])` is called with the following
argument — but on `["--run-test"]` there is no following argument: the
dispatch raises the IndexError and makes no call at all. -/
theorem C4_counterexample :
    ((Operators.mainDispatch (⟨true, ()⟩ : Operators.OperatorTest Unit)
        ["--run-test"]).events.filter Operators.OTEvent.isCall = []) ∧
    (Operators.mainDispatch (⟨true, ()⟩ : Operators.OperatorTest Unit)
        ["--run-test"]).err = true :=
  ⟨rfl, rfl⟩

/-- C4 (amended): `main` scans argv left to right and dispatches exactly
the first occurrence of either flag, then stops: a first
`--run-all-tests` calls `run_all_tests()`; a first `--run-test` followed
by an argument calls `run_test` on that argument; a first `--run-test`
that is the last element raises the IndexError and calls nothing (its
trace holds only the `apply_modifiers` assignment); at most one call
into the `OperatorTest` object is ever made, and none when neither flag
is present. -/
theorem C4_theorem {α : Type} (st : Operators.OperatorTest α) :
    (∀ cmds, Operators.noFlags cmds = true →
        Operators.mainDispatch st cmds = ⟨st, [], false⟩) ∧
    (∀ pre rest, Operators.noFlags pre = true →
        Operators.mainDispatch st (pre ++ "--run-all-tests" :: rest) =
          ⟨st, [.call_run_all_tests], false⟩) ∧
    (∀ pre n rest, Operators.noFlags pre = true →
        Operators.mainDispatch st (pre ++ "--run-test" :: n :: rest) =
          ⟨{ st with apply_modifiers := false },
           [.set_apply_modifiers false, .call_run_test n], false⟩) ∧
    (∀ pre, Operators.noFlags pre = true →
        Operators.mainDispatch st (pre ++ ["--run-test"]) =
          ⟨{ st with apply_modifiers := false },
           [.set_apply_modifiers false], true⟩) ∧
    (∀ cmds, ((Operators.mainDispatch st cmds).events.filter
        Operators.OTEvent.isCall).length ≤ 1) := by
  refine ⟨Operators.mainDispatch_noFlags st,
          Operators.mainDispatch_runAll st,
          Operators.mainDispatch_runTest st,
          Operators.mainDispatch_runTest_missing st, ?_⟩
  intro cmds
  rcases Operators.firstFlag_cases cmds with h | ⟨pre, r, heq, hpre⟩ |
    ⟨pre, n, r, heq, hpre⟩ | ⟨pre, heq, hpre⟩
  · rw [Operators.mainDispatch_noFlags st cmds h]; simp
  · rw [heq, Operators.mainDispatch_runAll st pre r hpre]
    simp [Operators.OTEvent.isCall]
  · rw [heq, Operators.mainDispatch_runTest st pre n r hpre]
    simp [Operators.OTEvent.isCall]
  · rw [heq, Operators.mainDispatch_runTest_missing st pre hpre]
    simp [Operators.OTEvent.isCall]

/-- C4 witness: on `["--run-test", "CubeBisect"]` the dispatch sets
`apply_modifiers` to `False` and calls `run_test("CubeBisect")`. -/
theorem C4_witness :
    Operators.mainDispatch (⟨true, ()⟩ : Operators.OperatorTest Unit)
        ["--run-test", "CubeBisect"] =
      ⟨⟨false, ()⟩,
       [.set_apply_modifiers false, .call_run_test "CubeBisect"], false⟩ :=
  (C4_theorem ⟨true, ()⟩).2.2.1 [] "CubeBisect" [] rfl

/-- C9: the `apply_modifiers = False` assignment happens only in the
`--run-test` branch, with value `False`, immediately before the `run_test`
call when that call happens; every run whose trace has no such assignment
(the `--run-all-tests` branch and the no-flag path) leaves the whole
`OperatorTest` object — `apply_modifiers` and every other field —
unchanged; and the final object is always either the original or the
original with only `apply_modifiers` set to `False`. -/
theorem C9_theorem {α : Type} (st : Operators.OperatorTest α)
    (cmds : List String) :
    ((∃ b, Operators.OTEvent.set_apply_modifiers b ∈
        (Operators.mainDispatch st cmds).events) →
      ((Operators.mainDispatch st cmds).events =
          [.set_apply_modifiers false] ∧
        (Operators.mainDispatch st cmds).err = true) ∨
      (∃ n, (Operators.mainDispatch st cmds).events =
          [.set_apply_modifiers false, .call_run_test n])) ∧
    ((¬ ∃ b, Operators.OTEvent.set_apply_modifiers b ∈
        (Operators.mainDispatch st cmds).events) →
      (Operators.mainDispatch st cmds).st = st) ∧
    ((Operators.mainDispatch st cmds).st = st ∨
      (Operators.mainDispatch st cmds).st =
        { st with apply_modifiers := false }) := by
  rcases Operators.firstFlag_cases cmds with h | ⟨pre, r, heq, hpre⟩ |
    ⟨pre, n, r, heq, hpre⟩ | ⟨pre, heq, hpre⟩
  · rw [Operators.mainDispatch_noFlags st cmds h]
    exact ⟨by rintro ⟨b, hb⟩; simp at hb, fun _ => rfl, Or.inl rfl⟩
  · rw [heq, Operators.mainDispatch_runAll st pre r hpre]
    exact ⟨by rintro ⟨b, hb⟩; simp at hb, fun _ => rfl, Or.inl rfl⟩
  · rw [heq, Operators.mainDispatch_runTest st pre n r hpre]
    refine ⟨fun _ => Or.inr ⟨n, rfl⟩, fun hno => absurd ⟨false, ?_⟩ hno,
      Or.inr rfl⟩
    simp
  · rw [heq, Operators.mainDispatch_runTest_missing st pre hpre]
    refine ⟨fun _ => Or.inl ⟨rfl, rfl⟩, fun hno => absurd ⟨false, ?_⟩ hno,
      Or.inr rfl⟩
    simp

/-- C9 witness: the `--run-all-tests` branch leaves the `OperatorTest`
object untouched. -/
theorem C9_witness :
    (Operators.mainDispatch (⟨true, 7⟩ : Operators.OperatorTest Nat)
        ["--run-all-tests"]).st = ⟨true, 7⟩ :=
  (C9_theorem ⟨true, 7⟩ ["--run-all-tests"]).2.1 (by decide)

/-- C6 counterexample: the first fixture row of `tests` is not a six-field
tuple of mode tag, index set, test name, expected-result name, operator
name and parameter dict — the source rows carry seven fields. -/
theorem C6_counterexample :
    Operators.tests.headI ∈ Operators.tests ∧
    Operators.entryShape6 Operators.tests.headI = false := by
  constructor
  · decide
  · rfl

/-- C6 (amended): every row of the `tests` fixture list is a plain literal
sequence of exactly seven fields in order — a selection mode tag (one of
VERT, EDGE, FACE), a set of element indices, a base object name, a test
name, an expected-result name, an operator name, and a parameter dict. -/
theorem C6_theorem :
    Operators.tests.all Operators.entryShape7 = true := by decide

namespace UserMenusUI

theorem isActiveItem_congr (um : UserMenus) (a b : UMItem)
    (h : a.id = b.id) : isActiveItem um a = isActiveItem um b := by
  unfold isActiveItem
  cases um.active_item with
  | none => rfl
  | some x => simp [h]

mutual

theorem draw_button_selected (ctx : Context) :
    ∀ (item : UMItem) (index : Int) (out : UMItem × List Widget),
      draw_button ctx item index = Except.ok out →
      ∀ d ∈ drawnOf out.1, d.is_selected = isActiveItem ctx.um d
  | .mk i nm ic tp s xs, index, out, h, d, hd => by
    rw [draw_button] at h
    simp only [] at h
    by_cases htp : tp = "SUBMENU"
    · rw [if_pos htp] at h
      cases hag : ctx.um.active_group with
      | none => rw [hag] at h; exact absurd h (by simp)
      | some g =>
        rw [hag] at h
        cases hdi : draw_item ctx xs with
        | error e => rw [hdi] at h; exact absurd h (by simp)
        | ok p =>
          rw [hdi] at h
          have hout : out.1 = UMItem.mk i nm ic tp
              (isActiveItem ctx.um (.mk i nm ic tp false xs)) p.1 := by
            cases p; cases h; rfl
          rw [hout] at hd
          rw [drawnOf] at hd
          rcases List.mem_cons.mp hd with rfl | hmem
          · rw [UMItem.is_selected]
            exact isActiveItem_congr ctx.um (.mk i nm ic tp false xs)
              (.mk i nm ic tp (isActiveItem ctx.um (.mk i nm ic tp false xs)) p.1)
              rfl
          · rw [if_pos htp] at hmem
            cases p with
            | mk xs2 ws =>
              exact draw_item_selected ctx xs (xs2, ws) hdi d hmem
    · rw [if_neg htp] at h
      have hout : out.1 = UMItem.mk i nm ic tp
          (isActiveItem ctx.um (.mk i nm ic tp false xs)) xs := by
        cases h; rfl
      rw [hout] at hd
      rw [drawnOf] at hd
      rcases List.mem_cons.mp hd with rfl | hmem
      · rw [UMItem.is_selected]
        exact isActiveItem_congr ctx.um (.mk i nm ic tp false xs)
          (.mk i nm ic tp (isActiveItem ctx.um (.mk i nm ic tp false xs)) xs)
          rfl
      · rw [if_neg htp] at hmem
        exact absurd hmem (by simp)

theorem draw_item_selected (ctx : Context) :
    ∀ (items : List UMItem) (out : List UMItem × List Widget),
      draw_item ctx items = Except.ok out →
      ∀ d ∈ drawnOfList out.1, d.is_selected = isActiveItem ctx.um d
  | [], out, h, d, hd => by
    rw [draw_item] at h
    cases h
    rw [drawnOfList] at hd
    exact absurd hd (by simp)
  | x :: rest, out, h, d, hd => by
    rw [draw_item] at h
    cases hb : draw_button ctx x (-1) with
    | error e => rw [hb] at h; exact absurd h (by simp)
    | ok p =>
      rw [hb] at h
      cases hr : draw_item ctx rest with
      | error e => rw [hr] at h; exact absurd h (by simp)
      | ok q =>
        rw [hr] at h
        have hout : out.1 = p.1 :: q.1 := by cases p; cases q; cases h; rfl
        rw [hout] at hd
        rw [drawnOfList] at hd
        rcases List.mem_append.mp hd with hmem | hmem
        · exact draw_button_selected ctx x (-1) p hb d hmem
        · exact draw_item_selected ctx rest q hr d hmem

end


mutual

theorem draw_button_strip (ctx : Context) :
    ∀ (item : UMItem) (index : Int) (out : UMItem × List Widget),
      draw_button ctx item index = Except.ok out →
      out.1.strip = item.strip
  | .mk i nm ic tp s xs, index, out, h => by
    rw [draw_button] at h
    by_cases htp : tp = "SUBMENU"
    · rw [if_pos htp] at h
      cases hag : ctx.um.active_group with
      | none => rw [hag] at h; exact absurd h (by simp)
      | some g =>
        rw [hag] at h
        cases hdi : draw_item ctx xs with
        | error e => rw [hdi] at h; exact absurd h (by simp)
        | ok p =>
          rw [hdi] at h
          have hout : out.1 = UMItem.mk i nm ic tp
              (isActiveItem ctx.um (.mk i nm ic tp false xs)) p.1 := by
            cases p; cases h; rfl
          rw [hout, UMItem.strip, UMItem.strip]
          have := draw_item_strip ctx xs p hdi
          rw [this]
    · rw [if_neg htp] at h
      have hout : out.1 = UMItem.mk i nm ic tp
          (isActiveItem ctx.um (.mk i nm ic tp false xs)) xs := by
        cases h; rfl
      rw [hout, UMItem.strip, UMItem.strip]

theorem draw_item_strip (ctx : Context) :
    ∀ (items : List UMItem) (out : List UMItem × List Widget),
      draw_item ctx items = Except.ok out →
      stripList out.1 = stripList items
  | [], out, h => by
    rw [draw_item] at h
    cases h
    rfl
  | x :: rest, out, h => by
    rw [draw_item] at h
    cases hb : draw_button ctx x (-1) with
    | error e => rw [hb] at h; exact absurd h (by simp)
    | ok p =>
      rw [hb] at h
      cases hr : draw_item ctx rest with
      | error e => rw [hr] at h; exact absurd h (by simp)
      | ok q =>
        rw [hr] at h
        have hout : out.1 = p.1 :: q.1 := by cases p; cases q; cases h; rfl
        rw [hout, stripList, stripList,
          draw_button_strip ctx x (-1) p hb, draw_item_strip ctx rest q hr]

end

mutual

theorem draw_button_total (ctx : Context) (g : UMGroup)
    (hag : ctx.um.active_group = some g) :
    ∀ (item : UMItem) (index : Int),
      ∃ out, draw_button ctx item index = Except.ok out
  | .mk i nm ic tp s xs, index => by
    rw [draw_button]
    by_cases htp : tp = "SUBMENU"
    · rw [if_pos htp, hag]
      obtain ⟨p, hp⟩ := draw_item_total ctx g hag xs
      rw [hp]
      exact ⟨_, rfl⟩
    · rw [if_neg htp]
      exact ⟨_, rfl⟩

theorem draw_item_total (ctx : Context) (g : UMGroup)
    (hag : ctx.um.active_group = some g) :
    ∀ (items : List UMItem),
      ∃ out, draw_item ctx items = Except.ok out
  | [] => ⟨_, by rw [draw_item]⟩
  | x :: rest => by
    rw [draw_item]
    obtain ⟨p, hp⟩ := draw_button_total ctx g hag x (-1)
    rw [hp]
    obtain ⟨q, hq⟩ := draw_item_total ctx g hag rest
    rw [hq]
    exact ⟨_, rfl⟩

end


theorem stripList_set :
    ∀ (l : List UMItem) (i : Nat) (x y : UMItem),
      l.get? i = some y → x.strip = y.strip →
      stripList (l.set i x) = stripList l
  | [], i, x, y, h, _ => by simp at h
  | a :: l, 0, x, y, h, hs => by
    have ha : a = y := by simpa using h
    subst ha
    rw [List.set_cons_zero, stripList, stripList, hs]
  | a :: l, i + 1, x, y, h, hs => by
    have h2 : l.get? i = some y := by simpa using h
    rw [List.set_cons_succ, stripList, stripList,
      stripList_set l i x y h2 hs]

theorem draw_pie_item_strip (ctx : Context) (item : UMItem) (lbl : String)
    (index : Int) (out : UMItem × List Widget)
    (h : draw_pie_item ctx item lbl index = Except.ok out) :
    out.1.strip = item.strip := by
  rw [draw_pie_item] at h
  cases hb : draw_button ctx item index with
  | error e => rw [hb] at h; exact absurd h (by simp)
  | ok p =>
    rw [hb] at h
    have : out.1 = p.1 := by cases p; cases h; rfl
    rw [this]
    exact draw_button_strip ctx item index p hb

theorem draw_pie_item_total (ctx : Context) (g : UMGroup)
    (hag : ctx.um.active_group = some g) (item : UMItem) (lbl : String)
    (index : Int) :
    ∃ out, draw_pie_item ctx item lbl index = Except.ok out := by
  rw [draw_pie_item]
  obtain ⟨p, hp⟩ := draw_button_total ctx g hag item index
  rw [hp]
  exact ⟨_, rfl⟩

theorem draw_pie_slots_strip (ctx : Context) :
    ∀ (slots : List (Nat × String)) (items : List UMItem)
      (out : List UMItem × List Widget),
      draw_pie_slots ctx slots items = Except.ok out →
      stripList out.1 = stripList items
  | [], items, out, h => by
    rw [draw_pie_slots] at h
    cases h
    rfl
  | (i, lbl) :: slots, items, out, h => by
    rw [draw_pie_slots] at h
    cases hget : items.get? i with
    | none => simp only [hget] at h; exact absurd h (by simp)
    | some y =>
      simp only [hget] at h
      cases hdp : draw_pie_item ctx y lbl (Int.ofNat i) with
      | error e => simp only [hdp] at h; exact absurd h (by simp)
      | ok p =>
        simp only [hdp] at h
        cases hrec : draw_pie_slots ctx slots (items.set i p.1) with
        | error e => simp only [hrec] at h; exact absurd h (by simp)
        | ok q =>
          simp only [hrec] at h
          have hout : out.1 = q.1 := by cases h; rfl
          rw [hout, draw_pie_slots_strip ctx slots (items.set i p.1) q hrec,
            stripList_set items i p.1 y hget
              (draw_pie_item_strip ctx y lbl (Int.ofNat i) p hdp)]

theorem draw_pie_slots_total (ctx : Context) (g : UMGroup)
    (hag : ctx.um.active_group = some g) :
    ∀ (slots : List (Nat × String)) (items : List UMItem),
      (∀ p ∈ slots, p.1 < items.length) →
      ∃ out, draw_pie_slots ctx slots items = Except.ok out
  | [], items, _ => ⟨_, by rw [draw_pie_slots]⟩
  | (i, lbl) :: slots, items, hlt => by
    have hi : i < items.length := hlt (i, lbl) (List.mem_cons_self _ _)
    cases hget : items.get? i with
    | none =>
      exact absurd (List.get?_eq_none.mp hget) (by omega)
    | some y =>
      obtain ⟨p, hp⟩ := draw_pie_item_total ctx g hag y lbl (Int.ofNat i)
      have hlt2 : ∀ q ∈ slots, q.1 < (items.set i p.1).length := by
        intro q hq
        rw [List.length_set]
        exact hlt q (List.mem_cons_of_mem _ hq)
      obtain ⟨r, hr⟩ := draw_pie_slots_total ctx g hag slots
        (items.set i p.1) hlt2
      refine ⟨(r.1, p.2 ++ r.2), ?_⟩
      rw [draw_pie_slots]
      simp only [hget, hp, hr]

/-- Every fixed pie slot index is below eight. -/
theorem pieSlots_lt : ∀ p ∈ pieSlots, p.1 < 8 := by decide

/-- Frame property of `draw_pie`: the only state it can change is the
selection flags of the current menu items. -/
theorem draw_pie_frame (ctx : Context) (out : Context × List Widget)
    (h : draw_pie ctx = Except.ok out) :
    out.1.keymaps = ctx.keymaps ∧
    out.1.um.menus = ctx.um.menus ∧
    out.1.um.active_group = ctx.um.active_group ∧
    out.1.um.active_item = ctx.um.active_item ∧
    out.1.um.has_item = ctx.um.has_item ∧
    out.1.um.expanded = ctx.um.expanded ∧
    Option.map Menu.strip out.1.um.current_menu =
      Option.map Menu.strip ctx.um.current_menu := by
  rw [draw_pie] at h
  cases hcm : ctx.um.current_menu with
  | none =>
    simp only [hcm] at h
    cases h
    exact ⟨rfl, rfl, rfl, rfl, rfl, rfl, by rw [hcm]⟩
  | some m =>
    simp only [hcm] at h
    cases hs : draw_pie_slots ctx pieSlots m.menu_items with
    | error e => simp only [hs] at h; exact absurd h (by simp)
    | ok p =>
      simp only [hs] at h
      have hout : out.1 =
          { ctx with um := { ctx.um with current_menu := some ⟨p.1⟩ } } := by
        cases h; rfl
      rw [hout]
      refine ⟨rfl, rfl, rfl, rfl, rfl, rfl, ?_⟩
      show some (Menu.strip ⟨p.1⟩) = some (Menu.strip m)
      rw [Menu.strip, Menu.strip,
        draw_pie_slots_strip ctx pieSlots m.menu_items p hs]

theorem draw_pie_total (ctx : Context) (g : UMGroup)
    (hag : ctx.um.active_group = some g)
    (hlen : ∀ m, ctx.um.current_menu = some m → 8 ≤ m.menu_items.length) :
    ∃ out, draw_pie ctx = Except.ok out := by
  rw [draw_pie]
  cases hcm : ctx.um.current_menu with
  | none => exact ⟨_, rfl⟩
  | some m =>
    have h8 := hlen m hcm
    obtain ⟨p, hp⟩ := draw_pie_slots_total ctx g hag pieSlots m.menu_items
      (fun q hq => lt_of_lt_of_le (pieSlots_lt q hq) h8)
    simp only [hp]
    exact ⟨_, rfl⟩

/-- Frame property of `draw_item_box`: the only state it can change is the
selection flags of the current menu items. -/
theorem draw_item_box_frame (ctx : Context) (out : Context × List Widget)
    (h : draw_item_box ctx = Except.ok out) :
    out.1.keymaps = ctx.keymaps ∧
    out.1.um.menus = ctx.um.menus ∧
    out.1.um.active_group = ctx.um.active_group ∧
    out.1.um.active_item = ctx.um.active_item ∧
    out.1.um.has_item = ctx.um.has_item ∧
    out.1.um.expanded = ctx.um.expanded ∧
    Option.map Menu.strip out.1.um.current_menu =
      Option.map Menu.strip ctx.um.current_menu := by
  rw [draw_item_box] at h
  by_cases hhi : ctx.um.has_item = false
  · rw [if_pos hhi] at h
    cases h
    exact ⟨rfl, rfl, rfl, rfl, rfl, rfl, rfl⟩
  · rw [if_neg hhi] at h
    cases hcm : ctx.um.current_menu with
    | none => simp only [hcm] at h; exact absurd h (by simp)
    | some m =>
      simp only [hcm] at h
      cases hdi : draw_item ctx m.menu_items with
      | error e => simp only [hdi] at h; exact absurd h (by simp)
      | ok p =>
        simp only [hdi] at h
        have hout : out.1 =
            { ctx with um := { ctx.um with current_menu := some ⟨p.1⟩ } } := by
          cases h; rfl
        rw [hout]
        refine ⟨rfl, rfl, rfl, rfl, rfl, rfl, ?_⟩
        show some (Menu.strip ⟨p.1⟩) = some (Menu.strip m)
        rw [Menu.strip, Menu.strip,
          draw_item_strip ctx m.menu_items p hdi]

theorem draw_item_box_total (ctx : Context) (g : UMGroup)
    (hag : ctx.um.active_group = some g)
    (hcm : ctx.um.has_item = true → ctx.um.current_menu.isSome) :
    ∃ out, draw_item_box ctx = Except.ok out := by
  rw [draw_item_box]
  by_cases hhi : ctx.um.has_item = false
  · rw [if_pos hhi]
    exact ⟨_, rfl⟩
  · rw [if_neg hhi]
    have hsome := hcm (by revert hhi; cases ctx.um.has_item <;> simp)
    cases hm : ctx.um.current_menu with
    | none => rw [hm] at hsome; exact absurd hsome (by simp)
    | some m =>
      obtain ⟨p, hp⟩ := draw_item_total ctx g hag m.menu_items
      simp only [hm, hp]
      exact ⟨_, rfl⟩

/-- The keymap search of `get_keymap` is the first match over the user
keymap items in iteration order (keymaps in order, items within each
keymap in order). -/
theorem findUserMenuKmi_flatten (idname : String) :
    ∀ kms : List Keymap,
      findUserMenuKmi kms idname =
        (kms.flatMap Keymap.keymap_items).find? (userMenuKmiPred idname)
  | [] => rfl
  | km :: rest => by
    rw [findUserMenuKmi, List.flatMap_cons, List.find?_append]
    cases h : km.keymap_items.find? (userMenuKmiPred idname) with
    | some kmi => simp only [h, Option.or]
    | none =>
      simp only [h, Option.or]
      exact findUserMenuKmi_flatten idname rest

/-- An `ensure=False` call of `get_keymap` returns the key configuration
unchanged: it never creates a keymap item. -/
theorem get_keymap_false_keymaps (ctx : Context) (idname : Option String)
    (out : Option KeymapItem × List Keymap)
    (h : get_keymap ctx idname false = Except.ok out) :
    out.2 = ctx.keymaps := by
  rw [get_keymap] at h
  by_cases hf : falsyStr idname = true
  · rw [if_pos hf] at h
    cases hag : ctx.um.active_group with
    | none => simp only [hag] at h; exact absurd h (by simp)
    | some g =>
      simp only [hag] at h
      cases hfind : findUserMenuKmi ctx.keymaps g.idname with
      | some kmi => simp only [hfind] at h; cases h; rfl
      | none => simp only [hfind, Bool.false_eq_true, if_false] at h; cases h; rfl
  · rw [if_neg hf] at h
    simp only [] at h
    cases hfind : findUserMenuKmi ctx.keymaps (idname.getD "") with
    | some kmi => simp only [hfind] at h; cases h; rfl
    | none => simp only [hfind, Bool.false_eq_true, if_false] at h; cases h; rfl

theorem get_keymap_none_false_total (ctx : Context) (g : UMGroup)
    (hag : ctx.um.active_group = some g) :
    ∃ out, get_keymap ctx none false = Except.ok out := by
  rw [get_keymap]
  rw [show falsyStr none = true from rfl]
  rw [if_pos rfl]
  cases hfind : findUserMenuKmi ctx.keymaps g.idname with
  | some kmi =>
    simp only [hag, hfind]
    exact ⟨_, rfl⟩
  | none =>
    simp only [hag, hfind, Bool.false_eq_true, if_false]
    exact ⟨_, rfl⟩

theorem draw_user_menu_preference_total (ctx : Context) (g q0 : UMGroup)
    (hag : ctx.um.active_group = some g)
    (hq : ctx.um.menus.head? = some q0) :
    ∃ ws, draw_user_menu_preference ctx = Except.ok ws := by
  rw [draw_user_menu_preference]
  obtain ⟨p, hp⟩ := get_keymap_none_false_total ctx g hag
  simp only [hp, hq, hag]
  exact ⟨_, rfl⟩

end UserMenusUI

/-- C10: drawing re-establishes the selection flags — after `draw_item`
(and hence `draw_button`) runs, every drawn item's `is_selected` equals
whether that item is `um.active_item` (compared by host object identity),
overwriting any prior value. -/
theorem C10_theorem (ctx : UserMenusUI.Context) :
    (∀ items out, UserMenusUI.draw_item ctx items = Except.ok out →
      ∀ d ∈ UserMenusUI.drawnOfList out.1,
        d.is_selected = UserMenusUI.isActiveItem ctx.um d) ∧
    (∀ item index out, UserMenusUI.draw_button ctx item index = Except.ok out →
      ∀ d ∈ UserMenusUI.drawnOf out.1,
        d.is_selected = UserMenusUI.isActiveItem ctx.um d) :=
  ⟨fun items out h => UserMenusUI.draw_item_selected ctx items out h,
   fun item index out h => UserMenusUI.draw_button_selected ctx item index out h⟩

/-- C10 witness: drawing a one-item list whose item is the active item
sets its selection flag to the active comparison. -/
theorem C10_witness :
    UserMenusUI.c10sel.is_selected =
      UserMenusUI.isActiveItem UserMenusUI.c10ctx.um UserMenusUI.c10sel := by
  refine (C10_theorem UserMenusUI.c10ctx).1 [UserMenusUI.c10item]
    ([UserMenusUI.c10sel],
     [UserMenusUI.Widget.prop (UserMenusUI.Obj.umItem 5) "is_selected" (some "A")])
    rfl UserMenusUI.c10sel ?_
  show UserMenusUI.c10sel ∈
    UserMenusUI.drawnOfList [UserMenusUI.c10sel]
  rw [UserMenusUI.drawnOfList, UserMenusUI.c10sel, UserMenusUI.drawnOf]
  simp

/-- C1 counterexample: the claim says no field of the host preference
graph is ever mutated by the drawing functions, but `draw_button`
overwrites `item.is_selected`: on a state whose active item is unset, a
previously selected item comes back with its flag cleared. -/
theorem C1_counterexample :
    UserMenusUI.draw_button UserMenusUI.c1ctx UserMenusUI.c1item (-1) =
      Except.ok (.mk 1 "A" "NONE" "OPERATOR" false [],
        [UserMenusUI.Widget.prop (UserMenusUI.Obj.umItem 1) "is_selected"
          (some "A")]) ∧
    UserMenusUI.c1item.is_selected = true ∧
    (UserMenusUI.UMItem.mk 1 "A" "NONE" "OPERATOR" false []).is_selected
      = false :=
  ⟨rfl, rfl, rfl⟩

namespace UserMenusUI

theorem applyGroupFallback_spec (um um1 : UserMenus) (g : UMGroup)
    (h : applyGroupFallback um = Except.ok (um1, g)) :
    um1.menus = um.menus ∧ um1.active_item = um.active_item ∧
    um1.has_item = um.has_item ∧ um1.current_menu = um.current_menu ∧
    um1.expanded = um.expanded ∧ um1.active_group = some g ∧
    ((um.active_group = some g ∧ um1 = um) ∨
     (um.active_group = none ∧ um.menus.head? = some g ∧
      um1 = { um with active_group := some g })) := by
  rw [applyGroupFallback] at h
  cases hag : um.active_group with
  | some ga =>
    simp only [hag] at h
    injection h with h2
    rw [Prod.mk.injEq] at h2
    obtain ⟨e1, e2⟩ := h2
    subst e1
    subst e2
    exact ⟨rfl, rfl, rfl, rfl, rfl, hag, Or.inl ⟨rfl, rfl⟩⟩
  | none =>
    simp only [hag] at h
    cases hh : um.menus.head? with
    | none => simp only [hh] at h; exact absurd h (by simp)
    | some g0 =>
      simp only [hh] at h
      injection h with h2
      rw [Prod.mk.injEq] at h2
      obtain ⟨e1, e2⟩ := h2
      subst e2
      subst e1
      exact ⟨rfl, rfl, rfl, rfl, rfl, rfl, Or.inr ⟨rfl, rfl, rfl⟩⟩

theorem pie_or_box_frame (c : Context) (g : UMGroup) (q : Context × List Widget)
    (h : (if g.typ = "PIE" then draw_pie c else draw_item_box c) =
      Except.ok q) :
    q.1.keymaps = c.keymaps ∧ q.1.um.menus = c.um.menus ∧
    q.1.um.active_group = c.um.active_group ∧
    q.1.um.active_item = c.um.active_item ∧
    q.1.um.has_item = c.um.has_item ∧ q.1.um.expanded = c.um.expanded ∧
    Option.map Menu.strip q.1.um.current_menu =
      Option.map Menu.strip c.um.current_menu := by
  by_cases htyp : g.typ = "PIE"
  · rw [if_pos htyp] at h
    exact draw_pie_frame c q h
  · rw [if_neg htyp] at h
    exact draw_item_box_frame c q h

theorem pie_or_box_total (c : Context) (g : UMGroup)
    (hag : c.um.active_group = some g)
    (hpie : ∀ m, c.um.current_menu = some m → g.typ = "PIE" →
      8 ≤ m.menu_items.length)
    (hbox : g.typ ≠ "PIE" → c.um.has_item = true → c.um.current_menu.isSome) :
    ∃ q, (if g.typ = "PIE" then draw_pie c else draw_item_box c) =
      Except.ok q := by
  by_cases htyp : g.typ = "PIE"
  · rw [if_pos htyp]
    exact draw_pie_total c g hag (fun m hm => hpie m hm htyp)
  · rw [if_neg htyp]
    exact draw_item_box_total c g hag (hbox htyp)

/-- Decomposition of a successful `draw_user_menus` run into its stages. -/
theorem draw_user_menus_cases (ctx : Context) (out : Context × List Widget)
    (h : draw_user_menus ctx = Except.ok out) :
    ∃ um1 g ws2 q,
      applyGroupFallback ctx.um = Except.ok (um1, g) ∧
      draw_user_menu_preference ⟨um1, ctx.keymaps⟩ = Except.ok ws2 ∧
      (if g.typ = "PIE" then draw_pie ⟨um1, ctx.keymaps⟩
       else draw_item_box ⟨um1, ctx.keymaps⟩) = Except.ok q ∧
      out.1 = q.1 ∧
      out.2.head? = some (Widget.menuSel "USERPREF_MT_menu_select" g.name) := by
  rw [draw_user_menus] at h
  cases hfb : applyGroupFallback ctx.um with
  | error e => simp only [hfb] at h; exact absurd h (by simp)
  | ok p =>
    simp only [hfb] at h
    cases hp : draw_user_menu_preference ⟨p.1, ctx.keymaps⟩ with
    | error e => simp only [hp] at h; exact absurd h (by simp)
    | ok ws2 =>
      simp only [hp] at h
      cases hq : (if p.2.typ = "PIE" then draw_pie ⟨p.1, ctx.keymaps⟩
                  else draw_item_box ⟨p.1, ctx.keymaps⟩) with
      | error e => simp only [hq] at h; exact absurd h (by simp)
      | ok q =>
        simp only [hq] at h
        injection h with h2
        refine ⟨p.1, p.2, ws2, q, rfl, hp, hq, ?_, ?_⟩
        · rw [← h2]
        · rw [← h2]
          simp only [List.cons_append, List.head?_cons]

end UserMenusUI

open UserMenusUI in
/-- C1 (amended): the UI module mostly reads host state, but not purely —
`draw_button` rewrites the `is_selected` flag of every drawn menu item,
`draw_user_menus` assigns the active-group fallback, and `get_keymap`
creates a keymap item when (and only when) `ensure` is true.  Apart from
those, a `draw_user_menus` run changes nothing: the key configuration,
menu list, active item, `has_item`, `expanded` are untouched, a set
active group is kept, the current menu changes at most in selection
flags, and rendering's own `ensure=False` lookups never create a keymap
item. -/
theorem C1_theorem (ctx : Context) (out : Context × List Widget)
    (h : draw_user_menus ctx = Except.ok out) :
    out.1.keymaps = ctx.keymaps ∧
    out.1.um.menus = ctx.um.menus ∧
    out.1.um.active_item = ctx.um.active_item ∧
    out.1.um.has_item = ctx.um.has_item ∧
    out.1.um.expanded = ctx.um.expanded ∧
    (∀ g, ctx.um.active_group = some g → out.1.um.active_group = some g) ∧
    Option.map Menu.strip out.1.um.current_menu =
      Option.map Menu.strip ctx.um.current_menu ∧
    (∀ idname o kms, get_keymap ctx idname false = Except.ok (o, kms) →
      kms = ctx.keymaps) := by
  obtain ⟨um1, g, ws2, q, hfb, hp, hq, hout1, _⟩ :=
    draw_user_menus_cases ctx out h
  obtain ⟨hm, hai, hhi, hcm, hex, hag1, hOr⟩ :=
    applyGroupFallback_spec ctx.um um1 g hfb
  have hfr := pie_or_box_frame ⟨um1, ctx.keymaps⟩ g q hq
  rw [hout1]
  refine ⟨hfr.1, ?_, ?_, ?_, ?_, ?_, ?_, ?_⟩
  · rw [hfr.2.1]; exact hm
  · rw [hfr.2.2.2.1]; exact hai
  · rw [hfr.2.2.2.2.1]; exact hhi
  · rw [hfr.2.2.2.2.2.1]; exact hex
  · intro g' hg'
    rw [hfr.2.2.1]
    show um1.active_group = some g'
    rw [hag1]
    rcases hOr with ⟨hag0, _⟩ | ⟨hag0, _, _⟩
    · rw [hag0] at hg'; exact hg'
    · rw [hag0] at hg'; exact absurd hg' (by simp)
  · rw [hfr.2.2.2.2.2.2]
    show Option.map Menu.strip um1.current_menu =
      Option.map Menu.strip ctx.um.current_menu
    rw [hcm]
  · intro idname o kms hk
    exact get_keymap_false_keymaps ctx idname (o, kms) hk

/-- C1 witness: a concrete successful render keeps the key configuration
and (strip-equal) current menu unchanged. -/
theorem C1_witness :
    UserMenusUI.c1out.1.keymaps = UserMenusUI.c1ctx.keymaps ∧
    Option.map UserMenusUI.Menu.strip UserMenusUI.c1out.1.um.current_menu =
      Option.map UserMenusUI.Menu.strip UserMenusUI.c1ctx.um.current_menu := by
  have h := C1_theorem UserMenusUI.c1ctx UserMenusUI.c1out rfl
  exact ⟨h.1, h.2.2.2.2.2.2.1⟩

open UserMenusUI in
/-- C3: under the host's non-null guarantees (a menu group to fall back
to exists, a current menu object exists whenever `has_item` reports
items, and a pie menu carries its eight slots — `wellformed`), every
drawing pass of `draw_user_menus` completes without failure; in
particular `draw_pie`'s accesses of `cm.menu_items` at indices 0-7 are
in range. -/
theorem C3_theorem (ctx : Context) (h : wellformed ctx = true) :
    ∃ out, draw_user_menus ctx = Except.ok out := by
  cases hms : ctx.um.menus with
  | nil => rw [wellformed, hms] at h; exact absurd h (by simp)
  | cons g0 rest =>
    simp only [wellformed, hms] at h
    rw [draw_user_menus]
    cases hag : ctx.um.active_group with
    | some ga =>
      simp only [hag, Option.getD_some] at h
      have hfb : applyGroupFallback ctx.um = Except.ok (ctx.um, ga) := by
        rw [applyGroupFallback, hag]
      simp only [hfb]
      have hq0 : (⟨ctx.um, ctx.keymaps⟩ : Context).um.menus.head? = some g0 := by
        show ctx.um.menus.head? = some g0
        rw [hms]
        rfl
      obtain ⟨ws2, hws2⟩ := draw_user_menu_preference_total
        ⟨ctx.um, ctx.keymaps⟩ ga g0 hag hq0
      simp only [hws2]
      have hpie : ∀ m,
          (⟨ctx.um, ctx.keymaps⟩ : Context).um.current_menu = some m →
          ga.typ = "PIE" → 8 ≤ m.menu_items.length := by
        intro m hm ht
        rw [if_pos ht] at h
        have hm2 : ctx.um.current_menu = some m := hm
        simp only [hm2] at h
        exact of_decide_eq_true h
      have hbox : ga.typ ≠ "PIE" →
          (⟨ctx.um, ctx.keymaps⟩ : Context).um.has_item = true →
          (⟨ctx.um, ctx.keymaps⟩ : Context).um.current_menu.isSome := by
        intro ht hhi
        rw [if_neg ht] at h
        have hhi2 : ctx.um.has_item = true := hhi
        rw [hhi2] at h
        simpa using h
      obtain ⟨q, hq2⟩ := pie_or_box_total ⟨ctx.um, ctx.keymaps⟩ ga hag hpie hbox
      simp only [hq2]
      exact ⟨_, rfl⟩
    | none =>
      simp only [hag, Option.getD_none] at h
      have hfb : applyGroupFallback ctx.um =
          Except.ok (⟨ctx.um.menus, some g0, ctx.um.active_item,
            ctx.um.has_item, ctx.um.current_menu, ctx.um.expanded⟩, g0) := by
        simp only [applyGroupFallback, hag, hms, List.head?_cons]
      simp only [hfb]
      have hag1 : ((⟨⟨ctx.um.menus, some g0, ctx.um.active_item,
          ctx.um.has_item, ctx.um.current_menu, ctx.um.expanded⟩,
          ctx.keymaps⟩ : Context)).um.active_group = some g0 := rfl
      have hq0 : ((⟨⟨ctx.um.menus, some g0, ctx.um.active_item,
          ctx.um.has_item, ctx.um.current_menu, ctx.um.expanded⟩,
          ctx.keymaps⟩ : Context)).um.menus.head? = some g0 := by
        show ctx.um.menus.head? = some g0
        rw [hms]
        rfl
      obtain ⟨ws2, hws2⟩ := draw_user_menu_preference_total
        ⟨⟨ctx.um.menus, some g0, ctx.um.active_item, ctx.um.has_item,
          ctx.um.current_menu, ctx.um.expanded⟩, ctx.keymaps⟩ g0 g0 hag1 hq0
      simp only [hws2]
      have hpie : ∀ m, ((⟨⟨ctx.um.menus, some g0, ctx.um.active_item,
          ctx.um.has_item, ctx.um.current_menu, ctx.um.expanded⟩,
          ctx.keymaps⟩ : Context)).um.current_menu = some m →
          g0.typ = "PIE" → 8 ≤ m.menu_items.length := by
        intro m hm ht
        rw [if_pos ht] at h
        have hm2 : ctx.um.current_menu = some m := hm
        simp only [hm2] at h
        exact of_decide_eq_true h
      have hbox : g0.typ ≠ "PIE" →
          ((⟨⟨ctx.um.menus, some g0, ctx.um.active_item,
            ctx.um.has_item, ctx.um.current_menu, ctx.um.expanded⟩,
            ctx.keymaps⟩ : Context)).um.has_item = true →
          ((⟨⟨ctx.um.menus, some g0, ctx.um.active_item,
            ctx.um.has_item, ctx.um.current_menu, ctx.um.expanded⟩,
            ctx.keymaps⟩ : Context)).um.current_menu.isSome := by
        intro ht hhi
        rw [if_neg ht] at h
        have hhi2 : ctx.um.has_item = true := hhi
        rw [hhi2] at h
        simpa using h
      obtain ⟨q, hq2⟩ := pie_or_box_total
        ⟨⟨ctx.um.menus, some g0, ctx.um.active_item, ctx.um.has_item,
          ctx.um.current_menu, ctx.um.expanded⟩, ctx.keymaps⟩ g0 hag1 hpie hbox
      simp only [hq2]
      exact ⟨_, rfl⟩

/-- C3 witness: a concrete well-formed pie state draws successfully. -/
theorem C3_witness :
    ∃ out, UserMenusUI.draw_user_menus UserMenusUI.c3ctx = Except.ok out :=
  C3_theorem UserMenusUI.c3ctx (by decide)

open UserMenusUI in
/-- C5: `draw_user_menus` falls back to a default active group when the
active group is unset — it becomes the first menu group, and the group
selector drawn first shows that group's name; a set active group is left
unchanged by the fallback. -/
theorem C5_theorem (ctx : Context) (out : Context × List Widget)
    (h : draw_user_menus ctx = Except.ok out) :
    (ctx.um.active_group = none →
      ∃ g0, ctx.um.menus.head? = some g0 ∧
        out.1.um.active_group = some g0 ∧
        out.2.head? = some (Widget.menuSel "USERPREF_MT_menu_select" g0.name)) ∧
    (∀ g, ctx.um.active_group = some g → out.1.um.active_group = some g) := by
  obtain ⟨um1, g, ws2, q, hfb, hp, hq, hout1, hhead⟩ :=
    draw_user_menus_cases ctx out h
  obtain ⟨hm, hai, hhi, hcm, hex, hag1, hOr⟩ :=
    applyGroupFallback_spec ctx.um um1 g hfb
  have hfr := pie_or_box_frame ⟨um1, ctx.keymaps⟩ g q hq
  have hagout : out.1.um.active_group = some g := by
    rw [hout1, hfr.2.2.1]
    exact hag1
  constructor
  · intro hnone
    rcases hOr with ⟨hag0, _⟩ | ⟨hag0, hh0, _⟩
    · rw [hnone] at hag0; exact absurd hag0 (by simp)
    · exact ⟨g, hh0, hagout, hhead⟩
  · intro g' hg'
    rcases hOr with ⟨hag0, _⟩ | ⟨hag0, _, _⟩
    · rw [hag0] at hg'
      injection hg' with he
      rw [hagout, he]
    · rw [hag0] at hg'; exact absurd hg' (by simp)

/-- C5 witness: on a concrete state with an unset active group the
fallback activates the first (only) menu group. -/
theorem C5_witness :
    UserMenusUI.c5out.1.um.active_group = some UserMenusUI.c5g := by
  obtain ⟨go, hgo, hago, hws⟩ :=
    (C5_theorem UserMenusUI.c5ctx UserMenusUI.c5out rfl).1 rfl
  have he : some UserMenusUI.c5g = some go := hgo
  cases he
  exact hago

open UserMenusUI in
/-- C7: `draw_item_editor` branches only on the active item's type tag —
with no items it emits the two help labels; with items but no active item
it emits the "No item selected." label; with an active item it always
emits the type selector, emits the icon and name widgets exactly when the
type is not SEPARATOR, the operator widgets exactly when it is OPERATOR,
the id_name widget exactly when it is MENU, and the id_name and context
widgets exactly when it is PROPERTY. -/
theorem C7_theorem (ctx : Context) :
    (ctx.um.has_item = false →
      draw_item_editor ctx =
        [Widget.label "No item in this list.",
         Widget.label "Add one or choose another list to get started"]) ∧
    (ctx.um.has_item = true → ctx.um.active_item = none →
      draw_item_editor ctx = [Widget.label "No item selected."]) ∧
    (∀ cur, ctx.um.has_item = true → ctx.um.active_item = some cur →
      Widget.prop (Obj.umItem cur.id) "type" none ∈ draw_item_editor ctx ∧
      ((Widget.prop (Obj.umItem cur.id) "icon" (some "") ∈
          draw_item_editor ctx ∧
        Widget.prop (Obj.umItem cur.id) "name" none ∈ draw_item_editor ctx) ↔
        cur.typ ≠ "SEPARATOR") ∧
      ((Widget.prop (Obj.umItemOp cur.id) "operator" none ∈
          draw_item_editor ctx ∧
        Widget.template_user_menu_item_properties (Obj.umItemOp cur.id) ∈
          draw_item_editor ctx) ↔ cur.typ = "OPERATOR") ∧
      ((Widget.prop (Obj.umItemMenu cur.id) "id_name" (some "ID name") ∈
          draw_item_editor ctx) ↔ cur.typ = "MENU") ∧
      ((Widget.prop (Obj.umItemProp cur.id) "id_name" none ∈
          draw_item_editor ctx ∧
        Widget.prop (Obj.umItemProp cur.id) "context" none ∈
          draw_item_editor ctx) ↔ cur.typ = "PROPERTY")) := by
  refine ⟨?_, ?_, ?_⟩
  · intro h0
    rw [draw_item_editor, if_pos h0]
  · intro h1 h2
    rw [draw_item_editor, if_neg (by rw [h1]; simp)]
    simp only [h2]
  · intro cur h1 h2
    have hL : draw_item_editor ctx =
        [Widget.prop (Obj.umItem cur.id) "type" none]
        ++ (if cur.typ ≠ "SEPARATOR" then
              [Widget.prop (Obj.umItem cur.id) "icon" (some ""),
               Widget.prop (Obj.umItem cur.id) "name" none]
            else [])
        ++ (if cur.typ = "OPERATOR" then
              [Widget.prop (Obj.umItemOp cur.id) "operator" none,
               Widget.template_user_menu_item_properties (Obj.umItemOp cur.id)]
            else [])
        ++ (if cur.typ = "MENU" then
              [Widget.prop (Obj.umItemMenu cur.id) "id_name" (some "ID name")]
            else [])
        ++ (if cur.typ = "PROPERTY" then
              [Widget.prop (Obj.umItemProp cur.id) "id_name" none,
               Widget.prop (Obj.umItemProp cur.id) "context" none]
            else []) := by
      rw [draw_item_editor, if_neg (by rw [h1]; simp)]
      simp only [h2]
    rw [hL]
    by_cases hS : cur.typ = "SEPARATOR" <;>
    by_cases hO : cur.typ = "OPERATOR" <;>
    by_cases hM : cur.typ = "MENU" <;>
    by_cases hP : cur.typ = "PROPERTY" <;>
    simp_all

open UserMenusUI in
/-- C7 witness: on a concrete state whose active item is a MENU item, the
editor emits the id_name widget. -/
theorem C7_witness :
    Widget.prop (Obj.umItemMenu 3) "id_name" (some "ID name") ∈
      draw_item_editor c7ctx := by
  have h := ((C7_theorem c7ctx).2.2 c7cur rfl rfl).2.2.2.1
  exact h.mpr rfl

open UserMenusUI in
/-- C8: `get_keymap` resolves an empty or `None` idname to the active
group's idname, then returns the first keymap item — over the user
keymaps in iteration order — bound to `wm.call_user_menu` whose
`properties.name` equals the resolved idname; with no such item it
returns `None` when `ensure` is false, and when `ensure` is true it
creates, marks active and returns a new item in the `Window` keymap bound
to `wm.call_user_menu` with event type `NONE`, whose `properties.idname`
(not `properties.name`) is set to the resolved idname. -/
theorem C8_theorem (ctx : Context) (idname : Option String) (ensure : Bool)
    (res : String)
    (hres : (if falsyStr idname then
               Option.map UMGroup.idname ctx.um.active_group
             else some (idname.getD "")) = some res) :
    (∀ kmi, (ctx.keymaps.flatMap Keymap.keymap_items).find?
        (userMenuKmiPred res) = some kmi →
      get_keymap ctx idname ensure = Except.ok (some kmi, ctx.keymaps)) ∧
    ((ctx.keymaps.flatMap Keymap.keymap_items).find?
        (userMenuKmiPred res) = none →
      (ensure = false →
        get_keymap ctx idname ensure = Except.ok (none, ctx.keymaps)) ∧
      (ensure = true →
        ∀ km, ctx.keymaps.find? (fun k => k.name = "Window") = some km →
        get_keymap ctx idname ensure =
          Except.ok (some (newUserMenuKmi res),
            addKmiToWindow (newUserMenuKmi res) ctx.keymaps))) ∧
    ((newUserMenuKmi res).idname = "wm.call_user_menu" ∧
     (newUserMenuKmi res).event_type = "NONE" ∧
     (newUserMenuKmi res).active = true ∧
     (newUserMenuKmi res).props_idname = res ∧
     (newUserMenuKmi res).props_name = "") := by
  have hred : get_keymap ctx idname ensure =
      (match findUserMenuKmi ctx.keymaps res with
       | some kmi => Except.ok (some kmi, ctx.keymaps)
       | none =>
         if ensure then
           match ctx.keymaps.find? (fun km => km.name = "Window") with
           | none => Except.error "KeyError: Window"
           | some _ =>
             Except.ok (some (newUserMenuKmi res),
               addKmiToWindow (newUserMenuKmi res) ctx.keymaps)
         else Except.ok (none, ctx.keymaps)) := by
    rw [get_keymap]
    by_cases hf : falsyStr idname = true
    · rw [if_pos hf] at hres ⊢
      cases hag : ctx.um.active_group with
      | none => rw [hag] at hres; exact absurd hres (by simp)
      | some gg =>
        rw [hag] at hres
        simp only [Option.map_some'] at hres
        injection hres with hres2
        simp only [hag, hres2]
    · rw [if_neg hf] at hres ⊢
      injection hres with hres2
      simp only [hres2]
  refine ⟨?_, ?_, rfl, rfl, rfl, rfl, rfl⟩
  · intro kmi hfind
    have hfn : findUserMenuKmi ctx.keymaps res = some kmi := by
      rw [findUserMenuKmi_flatten res ctx.keymaps]
      exact hfind
    rw [hred]
    simp only [hfn]
  · intro hnone
    have hfn : findUserMenuKmi ctx.keymaps res = none := by
      rw [findUserMenuKmi_flatten res ctx.keymaps]
      exact hnone
    constructor
    · intro hens
      rw [hred]
      simp only [hfn, hens, Bool.false_eq_true, if_false]
    · intro hens km hkm
      rw [hred]
      simp only [hfn, hens, if_true, hkm]

open UserMenusUI in
/-- C8 witness: on a concrete state, a `None` idname resolves to the
active group's idname and the matching item of the `Window` keymap is
returned with the key configuration unchanged. -/
theorem C8_witness :
    get_keymap c8ctx none false = Except.ok (some c8kmi, c8ctx.keymaps) := by
  exact (C8_theorem c8ctx none false "QF" rfl).1 c8kmi rfl
